import Mathlib

/-!
Shallow embedding of the money-transfer core of the Banking-Copilot
repository (`src/money_transfer.py`, class `MoneyTransfer`), together with
theorems settling the behavioural claims about it.

Modelling conventions:
* pandas DataFrames become Lean lists of typed rows (`Account`, `Txn`,
  `User`), in row order; `.iloc[0]` of a filtered frame becomes `head?` of a
  filtered list, and writing `.at[idx, 'balance']` for the first index whose
  `account_id` matches becomes `set_balance_by_id` (first-match update).
* money amounts and balances are exact rationals (`ℚ`); the Python source
  uses IEEE floats, but every constant in the claims (including 10000.01)
  is exactly representable and all comparisons agree with the rational ones.
* timestamps are a single rational time axis: `pd.Timestamp.now()` becomes
  an explicit `now : ℚ` parameter, `pd.Timedelta(days=d)` a subtraction.
* user-facing message strings are modelled structurally by the inductive
  `Msg`: each constructor corresponds to one literal f-string of the source
  and carries exactly the data interpolated into it.
* fallible code paths (Python exceptions) become `Option`: `none` is an
  exception escaping to the enclosing `try` of `transfer_money`.
* file persistence (`save_data`) is external I/O; its success is an explicit
  boolean parameter `save_ok` of `transfer_money`.
-/

attribute [local semireducible] Rat.add Rat.sub Rat.mul Rat.inv Rat.ofScientific

/-- One row of the accounts table (`accounts.csv`), the columns used by
`money_transfer.py`. -/
structure Account where
  account_id : String
  owner_id : String
  account_type : String
  account_name : String
  balance : ℚ
  currency : String
deriving DecidableEq

/-- One row of the transactions table (`transaction_history.csv`), the
columns written by `MoneyTransfer.transfer_money`. -/
structure Txn where
  transaction_id : String
  account_id : String
  date : ℚ
  description : String
  category : String
  amount : ℚ
  currency : String
  balance_after : ℚ
  status : String
  merchant_name : String
  location : String
  transaction_type : String
deriving DecidableEq

/-- One row of the users table (`users.csv`), the columns used by
`money_transfer.py` (email and password are never read by the core). -/
structure User where
  user_id : String
  first_name : String
  last_name : String
deriving DecidableEq

/-- The in-memory state of a `MoneyTransfer` instance: the three tables
loaded by `load_data`. -/
structure MoneyTransfer where
  accounts : List Account
  transactions : List Txn
  users : List User
deriving DecidableEq

/-- Structural model of the user-facing message strings produced by
`money_transfer.py`; each constructor is one literal message of the source
and carries the values interpolated into it. -/
inductive Msg where
  /-- "Source user \x7bsource_user_id\x7d not found" -/
  | sourceUserNotFound (user_id : String)
  /-- "Target user \x7btarget_user_id\x7d not found" -/
  | targetUserNotFound (user_id : String)
  /-- "User \x7buser_id\x7d not found" (get_transfer_history) -/
  | userNotFound (user_id : String)
  /-- "Amount must be a number (e.g., 100 or 100.50)" -/
  | amountNotNumber
  /-- "Amount must be greater than zero" -/
  | amountNotPositive
  /-- "Transfers over $10,000 require additional authorization. Please contact support." -/
  | amountOverLimit
  /-- "Amount valid" -/
  | amountValid
  /-- "Account not found" (check_sufficient_funds, account lookup failed) -/
  | accountNotFound
  /-- "Insufficient funds. Current balance: $\x7bbalance\x7d. Amount needed: $\x7bamount\x7d." plus,
  when `suggestion = some name`, " You have sufficient funds in your \x7bname\x7d account." -/
  | insufficientFunds (balance : ℚ) (needed : ℚ) (suggestion : Option String)
  /-- "Sufficient funds" -/
  | sufficientFunds
  /-- "One or both accounts not found" (validate_currency) -/
  | currencyAccountsNotFound
  /-- "Both accounts must use USD for transfers" -/
  | currencyMismatch
  /-- "Currency validation passed" -/
  | currencyOk
  /-- "Failed to save transaction. Transfer aborted." -/
  | saveFailed
  /-- "Successfully transferred $\x7bamount\x7d from \x7bsource_name\x7d to \x7btarget_name\x7d" -/
  | transferSuccess (amount : ℚ) (source_name target_name : String)
  /-- "An unexpected error occurred: \x7be\x7d" -/
  | systemError
  /-- "Unable to retrieve account information. Please try again later." -/
  | dataError
  /-- "No accounts found" -/
  | noAccounts
  /-- "No transfers found" -/
  | noTransfersFound
  /-- "Found \x7bn\x7d transfers" -/
  | foundTransfers (n : Nat)
deriving DecidableEq

/-- The error codes of the `code` field of the result dictionaries of
`money_transfer.py`. -/
inductive ErrCode where
  | USER_NOT_FOUND
  | INVALID_AMOUNT
  | INSUFFICIENT_FUNDS
  | CURRENCY_MISMATCH
  | SAVE_FAILURE
  | SYSTEM_ERROR
  | DATA_ERROR
  | NO_ACCOUNTS
deriving DecidableEq

/-- The result dictionary returned by `transfer_money`: either the success
envelope (message, both new balances, debit transaction id, timestamp) or an
error envelope (code, message). -/
inductive TransferResult where
  | success (message : Msg) (source_balance target_balance : ℚ)
      (transaction_id : String) (timestamp : ℚ)
  | error (code : ErrCode) (message : Msg)
deriving DecidableEq

/-- `True` on the success envelope (`status == "success"` in the source). -/
def TransferResult.isSuccess : TransferResult → Bool
  | .success _ _ _ _ _ => true
  | .error _ _ => false

/-- One formatted transfer record of `get_transfer_history` (the source
formats `date` and `amount` into display strings; the model keeps the
underlying field values). -/
structure HistEntry where
  transaction_id : String
  date : ℚ
  description : String
  amount : ℚ
  currency : String
  account_id : String
  balance_after : ℚ
deriving DecidableEq

/-- The result envelope of `get_transfer_history`: success with the list of
formatted transfers, or an error with a code. -/
inductive HistResult where
  | success (message : Msg) (transfers : List HistEntry)
  | error (code : ErrCode) (message : Msg)
deriving DecidableEq

/-- The argument passed to `validate_amount`; the source first checks
`isinstance(amount, (int, float))`, so the model distinguishes numeric
arguments from everything else. -/
inductive AmountArg where
  | num (q : ℚ)
  | nonNumber
deriving DecidableEq

/-- The hard-coded fallback user ids of `validate_user`, used when the users
table failed to load (is empty). -/
def default_user_ids : List String :=
  ["USR001", "USR002", "USR003", "USR004", "USR005"]

/-- `MoneyTransfer.validate_user`: a user exists iff its id occurs in the
users table; when the table is empty the hard-coded default ids are used.
(The `user_id is None` guard of the source is outside the `String` domain of
the model.) -/
def validate_user (mt : MoneyTransfer) (user_id : String) : Bool :=
  if mt.users.isEmpty then default_user_ids.contains user_id
  else mt.users.any (fun u => u.user_id == user_id)

/-- `MoneyTransfer.get_account_by_type`: validate the user, then return the
first accounts row matching `(owner_id, account_type)` (`.iloc[0]` of the
filtered frame), or `none` when the filter is empty. -/
def get_account_by_type (mt : MoneyTransfer) (user_id account_type : String) :
    Option Account :=
  if validate_user mt user_id = false then none
  else (mt.accounts.filter
    (fun a => a.owner_id == user_id && a.account_type == account_type)).head?

/-- `MoneyTransfer.validate_amount`: rejects non-numbers, non-positive
amounts, and amounts strictly over 10000 (each with its own message). -/
def validate_amount : AmountArg → Bool × Msg
  | .nonNumber => (false, .amountNotNumber)
  | .num a =>
    if a ≤ 0 then (false, .amountNotPositive)
    else if 10000 < a then (false, .amountOverLimit)
    else (true, .amountValid)

/-- `MoneyTransfer.check_sufficient_funds`: looks the account up by
`(user_id, account_type)`; fails when it is missing, or when its balance is
strictly below `amount` — in which case the message carries the balance, the
amount, and (when one exists) the name of the first other-typed account of
the same user whose balance covers `amount`. -/
def check_sufficient_funds (mt : MoneyTransfer) (user_id account_type : String)
    (amount : ℚ) : Bool × Msg :=
  match get_account_by_type mt user_id account_type with
  | none => (false, .accountNotFound)
  | some account =>
    if account.balance < amount then
      (false, .insufficientFunds account.balance amount
        (((mt.accounts.filter
            (fun a => a.owner_id == user_id && !(a.account_type == account_type))).filter
          (fun a => decide (amount ≤ a.balance))).head?.map
          (fun a => a.account_name)))
    else (true, .sufficientFunds)

/-- `MoneyTransfer.validate_currency`: both accounts must exist and both
must carry currency "USD". -/
def validate_currency (mt : MoneyTransfer)
    (source_user_id target_user_id source_account_type target_account_type : String) :
    Bool × Msg :=
  match get_account_by_type mt source_user_id source_account_type,
        get_account_by_type mt target_user_id target_account_type with
  | some sa, some ta =>
    if !(sa.currency == "USD") || !(ta.currency == "USD") then
      (false, .currencyMismatch)
    else (true, .currencyOk)
  | _, _ => (false, .currencyAccountsNotFound)

/-- Value of a decimal digit string (`int(...)` of the source on all-digit
input). -/
def digitsToNat (ds : List Char) : Nat :=
  ds.foldl (fun n c => n * 10 + (c.toNat - 48)) 0

/-- Model of `Series.str.extract(r'TX(\d+)')` on one id: the leftmost
occurrence of `"TX"` followed by at least one digit yields the value of the
maximal digit run after it; `none` when there is no such occurrence (the
source's NaN). -/
def extractTxNum : List Char → Option Nat
  | [] => none
  | 'T' :: rest =>
    match rest with
    | 'X' :: d :: rest2 =>
      if d.isDigit then some (digitsToNat ((d :: rest2).takeWhile Char.isDigit))
      else extractTxNum rest
    | _ => extractTxNum rest
  | _ :: rest => extractTxNum rest

/-- The id format `f"TX\x7bn:04d\x7d"`: `"TX"` followed by the decimal digits of
`n`, zero-padded on the left to at least four digits. -/
def txFormat (n : Nat) : String :=
  "TX" ++ String.mk (List.replicate (4 - (toString n).length) '0') ++ toString n

/-- Numeric core of `MoneyTransfer.generate_transaction_id`: 1 on an empty
table, else the maximum extracted numeric suffix plus one. When some id has
no `TX`+digits occurrence, `pd.to_numeric(..., errors='coerce')` makes the
series float-typed and the `:04d` format raises — modelled as `none`. -/
def next_tx_number (txns : List Txn) : Option Nat :=
  if txns.isEmpty then some 1
  else
    if (txns.map (fun t => extractTxNum t.transaction_id.data)).all Option.isSome then
      some (((txns.map (fun t => extractTxNum t.transaction_id.data)).filterMap id).foldl
        Nat.max 0 + 1)
    else none

/-- `MoneyTransfer.generate_transaction_id`: the formatted next transaction
id, `none` when the `:04d` format would raise (see `next_tx_number`). -/
def generate_transaction_id (txns : List Txn) : Option String :=
  (next_tx_number txns).map txFormat

/-- A transaction id of the fixed textual form scanned by the allocator:
literally `"TX"` followed by at least one decimal digit. -/
def isTxIdForm (s : String) : Bool :=
  match s.data with
  | 'T' :: 'X' :: ds => !ds.isEmpty && ds.all Char.isDigit
  | _ => false

/-- The balance write `self.accounts.at[idx, 'balance'] = b` where `idx` is
the first index whose `account_id` matches: update the balance of the first
matching row, leaving every other row unchanged. -/
def set_balance_by_id : List Account → String → ℚ → List Account
  | [], _, _ => []
  | a :: rest, aid, b =>
    if a.account_id == aid then { a with balance := b } :: rest
    else a :: set_balance_by_id rest aid b

/-- The display name `f"\x7bfirst_name\x7d \x7blast_name\x7d"` built for transfer
descriptions. -/
def user_display_name (u : User) : String := u.first_name ++ " " ++ u.last_name

/-- The debit leg appended on the source account (lines 326–339): amount
negated, `balance_after` the freshly computed source balance, id `txFormat n`. -/
def debit_txn (source_account : Account) (amount : ℚ) (desc : String)
    (now : ℚ) (n : Nat) : Txn :=
  { transaction_id := txFormat n
    account_id := source_account.account_id
    date := now
    description := desc
    category := "Transfers"
    amount := -amount
    currency := source_account.currency
    balance_after := source_account.balance - amount
    status := "completed"
    merchant_name := "Internal Transfer"
    location := "N/A"
    transaction_type := "transfer" }

/-- The credit leg appended on the target account (lines 342–355): amount
positive, `balance_after` the freshly computed target balance, id
`txFormat (n + 1)`. -/
def credit_txn (target_account : Account) (amount : ℚ) (desc : String)
    (now : ℚ) (n : Nat) : Txn :=
  { transaction_id := txFormat (n + 1)
    account_id := target_account.account_id
    date := now
    description := desc
    category := "Transfers"
    amount := amount
    currency := target_account.currency
    balance_after := target_account.balance + amount
    status := "completed"
    merchant_name := "Internal Transfer"
    location := "N/A"
    transaction_type := "transfer" }

/-- Lines 287–358 of `transfer_money` (the body of the `try` after
validation): resolve both account rows, mutate the two balances (source
first, then target — on the same row the target write wins), resolve both
user rows for display names, allocate the transaction-id pair and append the
debit/credit legs. `none` models a Python exception escaping to the
enclosing `except` (empty `.iloc[0]` lookups, or the id-format error); the
source re-parses the allocated id with `int(transaction_id[2:]) + 1`, which
recovers `n + 1` since the id is `f"TX\x7bn:04d\x7d"`. -/
def transfer_core (mt : MoneyTransfer)
    (source_user_id target_user_id : String) (amount : ℚ)
    (source_account_type target_account_type : String)
    (description : Option String) (now : ℚ) :
    Option (TransferResult × MoneyTransfer) :=
  match get_account_by_type mt source_user_id source_account_type,
        get_account_by_type mt target_user_id target_account_type with
  | some source_account, some target_account =>
    let accounts2 := set_balance_by_id
      (set_balance_by_id mt.accounts source_account.account_id
        (source_account.balance - amount))
      target_account.account_id (target_account.balance + amount)
    match (mt.users.filter (fun u => u.user_id == source_user_id)).head?,
          (mt.users.filter (fun u => u.user_id == target_user_id)).head? with
    | some source_user, some target_user =>
      let source_name := user_display_name source_user
      let target_name := user_display_name target_user
      match next_tx_number mt.transactions with
      | some n =>
        some (.success (.transferSuccess amount source_name target_name)
            (source_account.balance - amount) (target_account.balance + amount)
            (txFormat n) now,
          { mt with
            accounts := accounts2
            transactions := mt.transactions ++
              [debit_txn source_account amount
                (description.getD ("Transfer to " ++ target_name)) now n,
               credit_txn target_account amount ("Transfer from " ++ source_name) now n] })
      | none => none
    | _, _ => none
  | _, _ => none

/-- `MoneyTransfer.transfer_money`: the five ordered validations, each
returning its error immediately with the state untouched; then the mutation
(`transfer_core`); an exception there restores the entry snapshot and yields
SYSTEM_ERROR; a failed `save_data` (`save_ok = false`) restores the snapshot
and yields SAVE_FAILURE; otherwise the success envelope with the mutated
state. -/
def transfer_money (mt : MoneyTransfer)
    (source_user_id target_user_id : String) (amount : ℚ)
    (source_account_type target_account_type : String)
    (description : Option String) (save_ok : Bool) (now : ℚ) :
    TransferResult × MoneyTransfer :=
  if validate_user mt source_user_id = false then
    (.error .USER_NOT_FOUND (.sourceUserNotFound source_user_id), mt)
  else if validate_user mt target_user_id = false then
    (.error .USER_NOT_FOUND (.targetUserNotFound target_user_id), mt)
  else if (validate_amount (.num amount)).1 = false then
    (.error .INVALID_AMOUNT (validate_amount (.num amount)).2, mt)
  else if (check_sufficient_funds mt source_user_id source_account_type amount).1 = false then
    (.error .INSUFFICIENT_FUNDS
      (check_sufficient_funds mt source_user_id source_account_type amount).2, mt)
  else if (validate_currency mt source_user_id target_user_id
      source_account_type target_account_type).1 = false then
    (.error .CURRENCY_MISMATCH
      (validate_currency mt source_user_id target_user_id
        source_account_type target_account_type).2, mt)
  else
    match transfer_core mt source_user_id target_user_id amount
        source_account_type target_account_type description now with
    | none => (.error .SYSTEM_ERROR .systemError, mt)
    | some (res, mt2) =>
      if save_ok then (res, mt2)
      else (.error .SAVE_FAILURE .saveFailed, mt)

/-- The five validations of `transfer_money` in their source order, as one
conjunction (used to state claims about the post-validation phase). -/
def passes_validation (mt : MoneyTransfer)
    (source_user_id target_user_id : String) (amount : ℚ)
    (source_account_type target_account_type : String) : Bool :=
  validate_user mt source_user_id && validate_user mt target_user_id &&
  (validate_amount (.num amount)).1 &&
  (check_sufficient_funds mt source_user_id source_account_type amount).1 &&
  (validate_currency mt source_user_id target_user_id
    source_account_type target_account_type).1

/-- The account ids resolved by `get_transfer_history` for a user,
optionally restricted to one account type. -/
def user_account_ids (mt : MoneyTransfer) (user_id : String)
    (account_type : Option String) : List String :=
  match account_type with
  | some t => (mt.accounts.filter
      (fun a => a.owner_id == user_id && a.account_type == t)).map
      (fun a => a.account_id)
  | none => (mt.accounts.filter (fun a => a.owner_id == user_id)).map
      (fun a => a.account_id)

/-- Newest-first order on transactions: `a` before `b` when `b.date ≤ a.date`. -/
def newestFirst (a b : Txn) : Prop := b.date ≤ a.date

instance : DecidableRel newestFirst :=
  fun a b => inferInstanceAs (Decidable (b.date ≤ a.date))

instance : IsTotal Txn newestFirst := ⟨fun a b => le_total b.date a.date⟩

instance : IsTrans Txn newestFirst := ⟨fun _ _ _ h1 h2 => le_trans h2 h1⟩

/-- The transaction filter of `get_transfer_history`: the user's account-id
set, the trailing window `date ≥ now - days`, and category "Transfers". -/
def history_filter (mt : MoneyTransfer) (user_id : String) (days : ℚ)
    (account_type : Option String) (now : ℚ) : List Txn :=
  mt.transactions.filter (fun t =>
    (user_account_ids mt user_id account_type).contains t.account_id &&
    decide (now - days ≤ t.date) && t.category == "Transfers")

/-- `sort_values('date', ascending=False)`: a permutation of the input
sorted newest first. -/
def sortNewestFirst (l : List Txn) : List Txn := List.insertionSort newestFirst l

/-- The per-row formatting of `get_transfer_history` (display formatting of
`date` and `amount` is kept as the underlying values). -/
def toHistEntry (t : Txn) : HistEntry :=
  { transaction_id := t.transaction_id
    date := t.date
    description := t.description
    amount := t.amount
    currency := t.currency
    account_id := t.account_id
    balance_after := t.balance_after }

/-- `MoneyTransfer.get_transfer_history`: validate the user, guard the empty
accounts table (DATA_ERROR), resolve the account-id set (NO_ACCOUNTS when
empty), guard the empty transactions table, then filter to the user's
transfers inside the trailing window, newest first. Always returns an
envelope; never raises. -/
def get_transfer_history (mt : MoneyTransfer) (user_id : String) (days : ℚ)
    (account_type : Option String) (now : ℚ) : HistResult :=
  if validate_user mt user_id = false then
    .error .USER_NOT_FOUND (.userNotFound user_id)
  else if mt.accounts.isEmpty then .error .DATA_ERROR .dataError
  else if (user_account_ids mt user_id account_type).isEmpty then
    .error .NO_ACCOUNTS .noAccounts
  else if mt.transactions.isEmpty then .success .noTransfersFound []
  else
    if (sortNewestFirst (history_filter mt user_id days account_type now)).isEmpty then
      .success .noTransfersFound []
    else
      .success
        (.foundTransfers
          (sortNewestFirst (history_filter mt user_id days account_type now)).length)
        ((sortNewestFirst (history_filter mt user_id days account_type now)).map toHistEntry)

/-- The total of all balances in an accounts table (the conserved quantity
of the claimed conservation law). -/
def sumBalances (l : List Account) : ℚ := (l.map (fun a => a.balance)).sum

/-! Concrete fixtures (sample rows in the shape of the repository's CSV
data), used by witness and counterexample theorems. -/

def uA : User := { user_id := "USR001", first_name := "Darren", last_name := "Tan" }

def uB : User := { user_id := "USR002", first_name := "Maria", last_name := "Lopez" }

def acctA : Account :=
  { account_id := "ACC001", owner_id := "USR001", account_type := "REGULAR_SAVINGS"
    account_name := "Darren Savings", balance := 500, currency := "USD" }

def acctB : Account :=
  { account_id := "ACC002", owner_id := "USR002", account_type := "REGULAR_SAVINGS"
    account_name := "Maria Savings", balance := 100, currency := "USD" }

def acctC : Account :=
  { account_id := "ACC003", owner_id := "USR001", account_type := "CHECKING"
    account_name := "Darren Checking", balance := 300, currency := "USD" }

def acctD : Account :=
  { account_id := "ACC004", owner_id := "USR001", account_type := "REGULAR_SAVINGS"
    account_name := "Darren Savings", balance := 50, currency := "USD" }

/-- Two users, one savings account each. -/
def mtAB : MoneyTransfer := { accounts := [acctA, acctB], transactions := [], users := [uA, uB] }

/-- A single user with a single account (the self-transfer scenario). -/
def mtSelf : MoneyTransfer := { accounts := [acctA], transactions := [], users := [uA] }

/-- Two valid users but accounts only for the first. -/
def mtNoAcct : MoneyTransfer := { accounts := [acctA], transactions := [], users := [uA, uB] }

/-- One user with a low-balance savings account and a well-funded checking
account (the suggestion scenario of `check_sufficient_funds`). -/
def mtFunds : MoneyTransfer := { accounts := [acctD, acctC], transactions := [], users := [uA] }

/-- Valid users but an empty accounts table (the DATA_ERROR guard of
`get_transfer_history`). -/
def mtEmptyAcct : MoneyTransfer := { accounts := [], transactions := [], users := [uA, uB] }

/-- A transaction row with the given id, account, date and category, in the
shape written by the repository's data files. -/
def txRow (tid aid : String) (d : ℚ) (cat : String) : Txn :=
  { transaction_id := tid, account_id := aid, date := d, description := "row " ++ tid
    category := cat, amount := 1, currency := "USD", balance_after := 0
    status := "completed", merchant_name := "Internal Transfer", location := "N/A"
    transaction_type := "transfer" }

/-- History fixtures: two in-window transfers on the user's account, one too
old, one with another category, one on another user's account. -/
def mtHist : MoneyTransfer :=
  { accounts := [acctA, acctB]
    transactions :=
      [txRow "TX0001" "ACC001" 3 "Transfers",
       txRow "TX0002" "ACC001" 6 "Transfers",
       txRow "TX0003" "ACC001" 7 "Groceries",
       txRow "TX0004" "ACC002" 9 "Transfers",
       txRow "TX0005" "ACC001" 10 "Transfers"]
    users := [uA, uB] }

/-! Shared lemmas about the embedded operations. -/

theorem head?_mem_of_eq_some {α : Type} {l : List α} {a : α} (h : l.head? = some a) :
    a ∈ l := by
  cases l with
  | nil => simp at h
  | cons b t =>
    simp only [List.head?_cons, Option.some.injEq] at h
    simp [h]

/-- A row produced by `get_account_by_type` is a row of the accounts table,
owned by the queried user and of the queried type. -/
theorem get_account_by_type_spec {mt : MoneyTransfer} {user_id account_type : String}
    {a : Account} (h : get_account_by_type mt user_id account_type = some a) :
    a ∈ mt.accounts ∧ a.owner_id = user_id ∧ a.account_type = account_type := by
  unfold get_account_by_type at h
  split at h
  · simp at h
  · have hm := head?_mem_of_eq_some h
    have hf := List.mem_filter.mp hm
    have hp := hf.2
    simp only [Bool.and_eq_true, beq_iff_eq] at hp
    exact ⟨hf.1, hp.1, hp.2⟩

theorem sumBalances_cons (a : Account) (l : List Account) :
    sumBalances (a :: l) = a.balance + sumBalances l := by
  simp [sumBalances]

/-- Updating the first row with a given id changes the total of balances by
the difference on that row. -/
theorem sumBalances_set_balance_by_id {l : List Account} {aid : String} {a : Account}
    (b : ℚ) (h : l.find? (fun x => x.account_id == aid) = some a) :
    sumBalances (set_balance_by_id l aid b) = sumBalances l - a.balance + b := by
  induction l with
  | nil => simp at h
  | cons c t ih =>
    cases hc : (c.account_id == aid) with
    | true =>
      simp only [List.find?_cons, hc] at h
      obtain rfl : c = a := Option.some.inj h
      simp only [set_balance_by_id, hc, if_true, sumBalances_cons]
      ring
    | false =>
      simp only [List.find?_cons, hc] at h
      simp only [set_balance_by_id, hc, Bool.false_eq_true, if_false, sumBalances_cons, ih h]
      ring

/-- Updating the first row with a given id makes `find?` on that id return
the updated row. -/
theorem find?_set_balance_by_id_same {l : List Account} {aid : String} {a : Account}
    (b : ℚ) (h : l.find? (fun x => x.account_id == aid) = some a) :
    (set_balance_by_id l aid b).find? (fun x => x.account_id == aid) =
      some { a with balance := b } := by
  induction l with
  | nil => simp at h
  | cons c t ih =>
    cases hc : (c.account_id == aid) with
    | true =>
      simp only [List.find?_cons, hc] at h
      obtain rfl : c = a := Option.some.inj h
      simp only [set_balance_by_id, hc, if_true, List.find?_cons]
    | false =>
      simp only [List.find?_cons, hc] at h
      simp only [set_balance_by_id, hc, Bool.false_eq_true, if_false, List.find?_cons]
      exact ih h

/-- Updating the first row with one id leaves `find?` on any other id
untouched. -/
theorem find?_set_balance_by_id_other {l : List Account} {aid aid2 : String}
    (b : ℚ) (hne : aid2 ≠ aid) :
    (set_balance_by_id l aid b).find? (fun x => x.account_id == aid2) =
      l.find? (fun x => x.account_id == aid2) := by
  induction l with
  | nil => rfl
  | cons c t ih =>
    cases hc : (c.account_id == aid) with
    | true =>
      have hc' : c.account_id = aid := by simpa using hc
      have hne2 : (c.account_id == aid2) = false := by
        simp only [beq_eq_false_iff_ne, ne_eq, hc']
        exact fun e => hne e.symm
      simp only [set_balance_by_id, hc, if_true, List.find?_cons, hne2]
    | false =>
      simp only [set_balance_by_id, hc, Bool.false_eq_true, if_false, List.find?_cons]
      cases hc2 : (c.account_id == aid2) with
      | true => simp
      | false => simpa using ih

/-- In a table with pairwise-distinct account ids, `find?` on the id of a
member row returns that row. -/
theorem find?_of_mem_nodup {l : List Account} {a : Account} (ha : a ∈ l)
    (hnd : (l.map (fun x => x.account_id)).Nodup) :
    l.find? (fun x => x.account_id == a.account_id) = some a := by
  induction l with
  | nil => simp at ha
  | cons c t ih =>
    rw [List.map_cons, List.nodup_cons] at hnd
    rcases List.mem_cons.mp ha with rfl | hat
    · simp [List.find?_cons]
    · have hne : (c.account_id == a.account_id) = false := by
        simp only [beq_eq_false_iff_ne, ne_eq]
        intro e
        exact hnd.1 (e ▸ List.mem_map_of_mem (fun x => x.account_id) hat)
      simp only [List.find?_cons, hne]
      exact ih hat hnd.2

/-- Full characterization of the post-validation phase when every lookup
succeeds: the mutated state and success envelope of lines 287–381. -/
theorem transfer_core_eq {mt : MoneyTransfer} {src tgt : String} {amount : ℚ}
    {srcT tgtT : String} {description : Option String} {now : ℚ}
    {sa ta : Account} {su tu : User} {n : Nat}
    (hsa : get_account_by_type mt src srcT = some sa)
    (hta : get_account_by_type mt tgt tgtT = some ta)
    (hsu : (mt.users.filter (fun u => u.user_id == src)).head? = some su)
    (htu : (mt.users.filter (fun u => u.user_id == tgt)).head? = some tu)
    (hn : next_tx_number mt.transactions = some n) :
    transfer_core mt src tgt amount srcT tgtT description now =
      some (.success (.transferSuccess amount (user_display_name su) (user_display_name tu))
          (sa.balance - amount) (ta.balance + amount) (txFormat n) now,
        { mt with
          accounts := set_balance_by_id
            (set_balance_by_id mt.accounts sa.account_id (sa.balance - amount))
            ta.account_id (ta.balance + amount)
          transactions := mt.transactions ++
            [debit_txn sa amount
              (description.getD ("Transfer to " ++ user_display_name tu)) now n,
             credit_txn ta amount ("Transfer from " ++ user_display_name su) now n] }) := by
  unfold transfer_core
  rw [hsa, hta, hsu, htu, hn]

/-- The post-validation phase only ever produces a success envelope. -/
theorem transfer_core_isSuccess {mt : MoneyTransfer} {src tgt : String} {amount : ℚ}
    {srcT tgtT : String} {description : Option String} {now : ℚ}
    {res : TransferResult} {mt2 : MoneyTransfer}
    (h : transfer_core mt src tgt amount srcT tgtT description now = some (res, mt2)) :
    res.isSuccess = true := by
  unfold transfer_core at h
  split at h
  · split at h
    · split at h
      · obtain ⟨h1, h2⟩ := Prod.mk.injEq .. ▸ Option.some.inj h
        subst h1
        rfl
      · simp at h
    · simp at h
  · simp at h

/-- A success result of `transfer_money` comes from the post-validation
phase with a successful save. -/
theorem transfer_money_success_inv {mt : MoneyTransfer} {src tgt : String} {amount : ℚ}
    {srcT tgtT : String} {description : Option String} {save_ok : Bool} {now : ℚ}
    {res : TransferResult} {mt2 : MoneyTransfer}
    (h : transfer_money mt src tgt amount srcT tgtT description save_ok now = (res, mt2))
    (hs : res.isSuccess = true) :
    transfer_core mt src tgt amount srcT tgtT description now = some (res, mt2)
      ∧ save_ok = true := by
  unfold transfer_money at h
  split at h
  · obtain ⟨h1, h2⟩ := Prod.mk.injEq .. ▸ h
    subst h1
    simp [TransferResult.isSuccess] at hs
  · split at h
    · obtain ⟨h1, h2⟩ := Prod.mk.injEq .. ▸ h
      subst h1
      simp [TransferResult.isSuccess] at hs
    · split at h
      · obtain ⟨h1, h2⟩ := Prod.mk.injEq .. ▸ h
        subst h1
        simp [TransferResult.isSuccess] at hs
      · split at h
        · obtain ⟨h1, h2⟩ := Prod.mk.injEq .. ▸ h
          subst h1
          simp [TransferResult.isSuccess] at hs
        · split at h
          · obtain ⟨h1, h2⟩ := Prod.mk.injEq .. ▸ h
            subst h1
            simp [TransferResult.isSuccess] at hs
          · split at h
            · obtain ⟨h1, h2⟩ := Prod.mk.injEq .. ▸ h
              subst h1
              simp [TransferResult.isSuccess] at hs
            · rename_i heq
              split at h
              · obtain ⟨h1, h2⟩ := Prod.mk.injEq .. ▸ h
                subst h1
                subst h2
                rename_i hsave
                exact ⟨heq, by simpa using hsave⟩
              · obtain ⟨h1, h2⟩ := Prod.mk.injEq .. ▸ h
                subst h1
                simp [TransferResult.isSuccess] at hs

/-- Unfolding of `transfer_money` once all five validations pass. -/
theorem transfer_money_of_valid {mt : MoneyTransfer} {src tgt : String} {amount : ℚ}
    {srcT tgtT : String} (desc : Option String) (save_ok : Bool) (now : ℚ)
    (h : passes_validation mt src tgt amount srcT tgtT = true) :
    transfer_money mt src tgt amount srcT tgtT desc save_ok now =
      match transfer_core mt src tgt amount srcT tgtT desc now with
      | none => (.error .SYSTEM_ERROR .systemError, mt)
      | some (res, mt2) =>
        if save_ok then (res, mt2) else (.error .SAVE_FAILURE .saveFailed, mt) := by
  unfold passes_validation at h
  simp only [Bool.and_eq_true] at h
  obtain ⟨⟨⟨⟨h1, h2⟩, h3⟩, h4⟩, h5⟩ := h
  simp [transfer_money, h1, h2, h3, h4, h5]

/-- Any non-success result of `transfer_money` leaves the state exactly as
it was at entry. -/
theorem transfer_money_error_inv {mt : MoneyTransfer} {src tgt : String} {amount : ℚ}
    {srcT tgtT : String} {desc : Option String} {save_ok : Bool} {now : ℚ}
    {res : TransferResult} {mt2 : MoneyTransfer}
    (h : transfer_money mt src tgt amount srcT tgtT desc save_ok now = (res, mt2))
    (he : res.isSuccess = false) : mt2 = mt := by
  unfold transfer_money at h
  split at h
  · exact ((Prod.mk.injEq .. ▸ h).2).symm
  · split at h
    · exact ((Prod.mk.injEq .. ▸ h).2).symm
    · split at h
      · exact ((Prod.mk.injEq .. ▸ h).2).symm
      · split at h
        · exact ((Prod.mk.injEq .. ▸ h).2).symm
        · split at h
          · exact ((Prod.mk.injEq .. ▸ h).2).symm
          · split at h
            · exact ((Prod.mk.injEq .. ▸ h).2).symm
            · rename_i heq
              split at h
              · obtain ⟨h1, h2⟩ := Prod.mk.injEq .. ▸ h
                subst h1
                have := transfer_core_isSuccess heq
                rw [this] at he
                cases he
              · exact ((Prod.mk.injEq .. ▸ h).2).symm

/-- Claim C2: every call to `transfer_money` that does not return success leaves
both the accounts and the transactions tables exactly as they were at entry;
when persistence fails (`save_ok = false`) the call never succeeds, and —
when the mutation phase was actually reached — it returns code SAVE_FAILURE;
an exception during the mutation phase returns SYSTEM_ERROR with both tables
restored. -/
theorem C2_rollback (mt : MoneyTransfer) (src tgt : String) (amount : ℚ)
    (srcT tgtT : String) (desc : Option String) (save_ok : Bool) (now : ℚ) :
    (∀ code m,
      (transfer_money mt src tgt amount srcT tgtT desc save_ok now).1 = .error code m →
      (transfer_money mt src tgt amount srcT tgtT desc save_ok now).2 = mt)
    ∧ (save_ok = false →
      (transfer_money mt src tgt amount srcT tgtT desc save_ok now).1.isSuccess = false
        ∧ (transfer_money mt src tgt amount srcT tgtT desc save_ok now).2 = mt)
    ∧ (save_ok = false → passes_validation mt src tgt amount srcT tgtT = true →
      transfer_core mt src tgt amount srcT tgtT desc now ≠ none →
      (transfer_money mt src tgt amount srcT tgtT desc save_ok now).1 =
        .error .SAVE_FAILURE .saveFailed)
    ∧ (passes_validation mt src tgt amount srcT tgtT = true →
      transfer_core mt src tgt amount srcT tgtT desc now = none →
      transfer_money mt src tgt amount srcT tgtT desc save_ok now =
        (.error .SYSTEM_ERROR .systemError, mt)) := by
  have hpair : transfer_money mt src tgt amount srcT tgtT desc save_ok now =
      ((transfer_money mt src tgt amount srcT tgtT desc save_ok now).1,
       (transfer_money mt src tgt amount srcT tgtT desc save_ok now).2) := rfl
  refine ⟨?_, ?_, ?_, ?_⟩
  · intro code m h
    exact transfer_money_error_inv hpair (by rw [h]; rfl)
  · intro hsv
    have hS : (transfer_money mt src tgt amount srcT tgtT desc save_ok now).1.isSuccess = false := by
      cases hS : (transfer_money mt src tgt amount srcT tgtT desc save_ok now).1.isSuccess with
      | false => rfl
      | true =>
        have := (transfer_money_success_inv hpair hS).2
        rw [hsv] at this
        cases this
    exact ⟨hS, transfer_money_error_inv hpair hS⟩
  · intro hsv hv hc
    rw [transfer_money_of_valid desc save_ok now hv]
    cases hcc : transfer_core mt src tgt amount srcT tgtT desc now with
    | none => exact absurd hcc hc
    | some p =>
      obtain ⟨res, mt2⟩ := p
      rw [hsv]
      rfl
  · intro hv hc
    rw [transfer_money_of_valid desc save_ok now hv, hc]

/-- Claim C4: the validations of `transfer_money` run in the fixed order source
user, target user, amount, funds, currency; the first failure is returned at
once with its own code and message, and the state is left untouched. -/
theorem C4_validation_order (mt : MoneyTransfer) (src tgt : String) (amount : ℚ)
    (srcT tgtT : String) (desc : Option String) (save_ok : Bool) (now : ℚ) :
    (validate_user mt src = false →
      transfer_money mt src tgt amount srcT tgtT desc save_ok now =
        (.error .USER_NOT_FOUND (.sourceUserNotFound src), mt))
    ∧ (validate_user mt src = true → validate_user mt tgt = false →
      transfer_money mt src tgt amount srcT tgtT desc save_ok now =
        (.error .USER_NOT_FOUND (.targetUserNotFound tgt), mt))
    ∧ (validate_user mt src = true → validate_user mt tgt = true →
      (validate_amount (.num amount)).1 = false →
      transfer_money mt src tgt amount srcT tgtT desc save_ok now =
        (.error .INVALID_AMOUNT (validate_amount (.num amount)).2, mt))
    ∧ (validate_user mt src = true → validate_user mt tgt = true →
      (validate_amount (.num amount)).1 = true →
      (check_sufficient_funds mt src srcT amount).1 = false →
      transfer_money mt src tgt amount srcT tgtT desc save_ok now =
        (.error .INSUFFICIENT_FUNDS (check_sufficient_funds mt src srcT amount).2, mt))
    ∧ (validate_user mt src = true → validate_user mt tgt = true →
      (validate_amount (.num amount)).1 = true →
      (check_sufficient_funds mt src srcT amount).1 = true →
      (validate_currency mt src tgt srcT tgtT).1 = false →
      transfer_money mt src tgt amount srcT tgtT desc save_ok now =
        (.error .CURRENCY_MISMATCH (validate_currency mt src tgt srcT tgtT).2, mt)) := by
  refine ⟨fun h1 => ?_, fun h1 h2 => ?_, fun h1 h2 h3 => ?_,
    fun h1 h2 h3 h4 => ?_, fun h1 h2 h3 h4 h5 => ?_⟩ <;>
    simp [transfer_money, h1, *]

/-- Claim C7: with existing source and target users, any amount rejected by
`validate_amount` makes `transfer_money` return code INVALID_AMOUNT with
`validate_amount`'s message for that amount — a pure function of the
arguments, independent of the persistence flag and clock — and the state is
returned untouched. -/
theorem C7_invalid_amount_rejection {mt : MoneyTransfer} {src tgt : String} {amount : ℚ}
    (srcT tgtT : String) (desc : Option String) (save_ok : Bool) (now : ℚ)
    (hsrc : validate_user mt src = true) (htgt : validate_user mt tgt = true)
    (hbad : (validate_amount (.num amount)).1 = false) :
    transfer_money mt src tgt amount srcT tgtT desc save_ok now =
      (.error .INVALID_AMOUNT (validate_amount (.num amount)).2, mt) := by
  simp [transfer_money, hsrc, htgt, hbad]

/-- Claim C10: when the source user passes validation (as does the target) and the
amount is valid, but the source user owns no account of the requested type,
`transfer_money` reports the missing account under code INSUFFICIENT_FUNDS
with the "Account not found" message, not under USER_NOT_FOUND. -/
theorem C10_missing_account_code {mt : MoneyTransfer} {src tgt : String} {amount : ℚ}
    {srcT : String} (tgtT : String) (desc : Option String) (save_ok : Bool) (now : ℚ)
    (hsrc : validate_user mt src = true) (htgt : validate_user mt tgt = true)
    (hamt : (validate_amount (.num amount)).1 = true)
    (hacc : get_account_by_type mt src srcT = none) :
    transfer_money mt src tgt amount srcT tgtT desc save_ok now =
      (.error .INSUFFICIENT_FUNDS .accountNotFound, mt) := by
  have hfunds : check_sufficient_funds mt src srcT amount = (false, .accountNotFound) := by
    simp [check_sufficient_funds, hacc]
  simp [transfer_money, hsrc, htgt, hamt, hfunds]

/-- Claim C5: `validate_amount` accepts exactly the positive amounts up to the
fixed ceiling 10000, rejecting non-numbers and non-positive amounts with one
message and over-ceiling amounts with a distinct authorization message;
consequently `transfer_money` never returns INVALID_AMOUNT at amount 10000,
while amount 10000.01 (with valid users) is rejected with INVALID_AMOUNT and
the authorization message. -/
theorem C5_amount_ceiling :
    (∀ a : ℚ, (validate_amount (.num a)).1 = true ↔ 0 < a ∧ a ≤ 10000)
    ∧ (validate_amount .nonNumber).1 = false
    ∧ (∀ a : ℚ, a ≤ 0 → validate_amount (.num a) = (false, .amountNotPositive))
    ∧ (∀ a : ℚ, 10000 < a → validate_amount (.num a) = (false, .amountOverLimit))
    ∧ Msg.amountOverLimit ≠ Msg.amountNotPositive
    ∧ validate_amount (.num 10000) = (true, .amountValid)
    ∧ (∀ (mt : MoneyTransfer) (src tgt srcT tgtT : String) (desc : Option String)
        (save_ok : Bool) (now : ℚ) (m : Msg),
        (transfer_money mt src tgt 10000 srcT tgtT desc save_ok now).1 ≠
          .error .INVALID_AMOUNT m)
    ∧ (∀ (mt : MoneyTransfer) (src tgt srcT tgtT : String) (desc : Option String)
        (save_ok : Bool) (now : ℚ),
        validate_user mt src = true → validate_user mt tgt = true →
        (transfer_money mt src tgt (10000.01 : ℚ) srcT tgtT desc save_ok now).1 =
          .error .INVALID_AMOUNT .amountOverLimit) := by
  have hiff : ∀ a : ℚ, (validate_amount (.num a)).1 = true ↔ 0 < a ∧ a ≤ 10000 := by
    intro a
    simp only [validate_amount]
    by_cases h0 : a ≤ 0
    · rw [if_pos h0]
      simp only [Bool.false_eq_true, false_iff, not_and]
      intro hp hle
      linarith
    · rw [if_neg h0]
      by_cases hc : 10000 < a
      · rw [if_pos hc]
        simp only [Bool.false_eq_true, false_iff, not_and]
        intro hp hle
        linarith
      · rw [if_neg hc]
        simp only [true_iff]
        exact ⟨not_le.mp h0, not_lt.mp hc⟩
  refine ⟨hiff, rfl, ?_, ?_, by decide, by decide, ?_, ?_⟩
  · intro a h0
    simp [validate_amount, h0]
  · intro a hc
    have h0 : ¬ a ≤ 0 := by linarith
    simp [validate_amount, h0, hc]
  · intro mt src tgt srcT tgtT desc save_ok now m h
    have hok : (validate_amount (.num (10000 : ℚ))).1 = true := by decide
    unfold transfer_money at h
    split at h
    · simp at h
    · split at h
      · simp at h
      · split at h
        · rename_i hbad
          rw [hok] at hbad
          cases hbad
        · split at h
          · simp at h
          · split at h
            · simp at h
            · split at h
              · simp at h
              · rename_i res mt2 heq
                split at h
                · have h2 : res = TransferResult.error .INVALID_AMOUNT m := h
                  have hs := transfer_core_isSuccess heq
                  rw [h2] at hs
                  simp [TransferResult.isSuccess] at hs
                · simp at h
  · intro mt src tgt srcT tgtT desc save_ok now hsrc htgt
    have hbad : validate_amount (.num (10000.01 : ℚ)) = (false, .amountOverLimit) := by decide
    simp [transfer_money, hsrc, htgt, hbad]

/-- Counterexample for claim C1: a self-transfer (source and target resolving to the
same account row) passes every validation and returns success, but the final
balance is the old balance plus the amount (the debit write is overwritten
by the credit write), so the sum of all balances grows by the amount instead
of being conserved, and the source balance is not decreased. -/
theorem C1_counterexample :
    (transfer_money mtSelf "USR001" "USR001" 100 "REGULAR_SAVINGS" "REGULAR_SAVINGS"
      none true 0).1.isSuccess = true
    ∧ sumBalances mtSelf.accounts = 500
    ∧ sumBalances (transfer_money mtSelf "USR001" "USR001" 100 "REGULAR_SAVINGS"
        "REGULAR_SAVINGS" none true 0).2.accounts = 600
    ∧ sumBalances (transfer_money mtSelf "USR001" "USR001" 100 "REGULAR_SAVINGS"
        "REGULAR_SAVINGS" none true 0).2.accounts ≠ sumBalances mtSelf.accounts
    ∧ ((transfer_money mtSelf "USR001" "USR001" 100 "REGULAR_SAVINGS" "REGULAR_SAVINGS"
        none true 0).2.accounts.find? (fun a => a.account_id == "ACC001")).map
        (fun a => a.balance) = some 600 := by
  refine ⟨by decide, by decide, by decide, by decide, by decide⟩

/-- Claim C1 (amended): on a successful transfer whose source and target resolve
to distinct account rows (in a table with pairwise-distinct account ids),
the source row drops by the amount, the target row gains the amount, and the
sum of all balances is conserved; when both resolve to the same row, that
row ends at its old balance plus the amount and the sum grows by the amount. -/
theorem C1_balance_conservation {mt : MoneyTransfer} {src tgt : String} {amount : ℚ}
    {srcT tgtT : String} {desc : Option String} {save_ok : Bool} {now : ℚ}
    {res : TransferResult} {mt2 : MoneyTransfer} {sa ta : Account}
    (h : transfer_money mt src tgt amount srcT tgtT desc save_ok now = (res, mt2))
    (hs : res.isSuccess = true)
    (hsa : get_account_by_type mt src srcT = some sa)
    (hta : get_account_by_type mt tgt tgtT = some ta)
    (hnd : (mt.accounts.map (fun a => a.account_id)).Nodup) :
    (sa.account_id ≠ ta.account_id →
      (mt2.accounts.find? (fun a => a.account_id == sa.account_id)).map (fun a => a.balance)
          = some (sa.balance - amount)
      ∧ (mt2.accounts.find? (fun a => a.account_id == ta.account_id)).map (fun a => a.balance)
          = some (ta.balance + amount)
      ∧ sumBalances mt2.accounts = sumBalances mt.accounts)
    ∧ (sa.account_id = ta.account_id →
      (mt2.accounts.find? (fun a => a.account_id == sa.account_id)).map (fun a => a.balance)
          = some (sa.balance + amount)
      ∧ sumBalances mt2.accounts = sumBalances mt.accounts + amount) := by
  obtain ⟨hcore, hsave⟩ := transfer_money_success_inv h hs
  unfold transfer_core at hcore
  rw [hsa, hta] at hcore
  cases husr : (mt.users.filter (fun u => u.user_id == src)).head? with
  | none => rw [husr] at hcore; simp at hcore
  | some su =>
  cases htusr : (mt.users.filter (fun u => u.user_id == tgt)).head? with
  | none => rw [husr, htusr] at hcore; simp at hcore
  | some tu =>
  cases hn : next_tx_number mt.transactions with
  | none => rw [husr, htusr, hn] at hcore; simp at hcore
  | some n =>
  rw [husr, htusr, hn] at hcore
  obtain ⟨hres, hmt2⟩ := Prod.mk.injEq .. ▸ Option.some.inj hcore
  have haccs : mt2.accounts = set_balance_by_id
      (set_balance_by_id mt.accounts sa.account_id (sa.balance - amount))
      ta.account_id (ta.balance + amount) := by
    rw [← hmt2]
  have hfindS : mt.accounts.find? (fun x => x.account_id == sa.account_id) = some sa :=
    find?_of_mem_nodup (get_account_by_type_spec hsa).1 hnd
  have hfindT : mt.accounts.find? (fun x => x.account_id == ta.account_id) = some ta :=
    find?_of_mem_nodup (get_account_by_type_spec hta).1 hnd
  have hfindS1 :
      (set_balance_by_id mt.accounts sa.account_id (sa.balance - amount)).find?
        (fun x => x.account_id == sa.account_id) =
        some { sa with balance := sa.balance - amount } :=
    find?_set_balance_by_id_same _ hfindS
  constructor
  · intro hne
    have hfindT1 :
        (set_balance_by_id mt.accounts sa.account_id (sa.balance - amount)).find?
          (fun x => x.account_id == ta.account_id) = some ta := by
      rw [find?_set_balance_by_id_other _ (Ne.symm hne)]
      exact hfindT
    refine ⟨?_, ?_, ?_⟩
    · rw [haccs, find?_set_balance_by_id_other _ hne, hfindS1]
      rfl
    · rw [haccs, find?_set_balance_by_id_same _ hfindT1]
      rfl
    · rw [haccs, sumBalances_set_balance_by_id _ hfindT1,
        sumBalances_set_balance_by_id _ hfindS]
      ring
  · intro heq
    have hTT : mt.accounts.find? (fun x => x.account_id == sa.account_id) = some ta := by
      rw [heq]; exact hfindT
    have hsata : sa = ta := Option.some.inj (hfindS.symm.trans hTT)
    have hfindS2 := find?_set_balance_by_id_same (ta.balance + amount) hfindS1
    constructor
    · rw [haccs, ← heq, hfindS2]
      simp [hsata]
    · rw [haccs, ← heq,
        sumBalances_set_balance_by_id _ hfindS1,
        sumBalances_set_balance_by_id _ hfindS]
      rw [← hsata]
      ring

/-- Claim C3: every successful `transfer_money` call appends exactly two rows to
the transactions table — a debit leg `-amount` on the source account and a
credit leg `+amount` on the target account, both dated with the same
timestamp, with consecutive ids `txFormat n` and `txFormat (n+1)`,
`balance_after` the freshly computed balance of the own account, the debit
description defaulting to "Transfer to \x7btarget display name\x7d" and the
credit description "Transfer from \x7bsource display name\x7d" (the
descriptions and `balance_after` fields are spelled out by `debit_txn` and
`credit_txn`); when the two rows are distinct and account ids are unique,
each leg's `balance_after` equals the final stored balance of its own
account. -/
theorem C3_transaction_pair {mt : MoneyTransfer} {src tgt : String} {amount : ℚ}
    {srcT tgtT : String} {desc : Option String} {save_ok : Bool} {now : ℚ}
    {res : TransferResult} {mt2 : MoneyTransfer} {sa ta : Account} {su tu : User} {n : Nat}
    (h : transfer_money mt src tgt amount srcT tgtT desc save_ok now = (res, mt2))
    (hs : res.isSuccess = true)
    (hsa : get_account_by_type mt src srcT = some sa)
    (hta : get_account_by_type mt tgt tgtT = some ta)
    (hsu : (mt.users.filter (fun u => u.user_id == src)).head? = some su)
    (htu : (mt.users.filter (fun u => u.user_id == tgt)).head? = some tu)
    (hn : next_tx_number mt.transactions = some n) :
    mt2.transactions = mt.transactions ++
      [debit_txn sa amount (desc.getD ("Transfer to " ++ user_display_name tu)) now n,
       credit_txn ta amount ("Transfer from " ++ user_display_name su) now n]
    ∧ res = .success (.transferSuccess amount (user_display_name su) (user_display_name tu))
        (sa.balance - amount) (ta.balance + amount) (txFormat n) now
    ∧ (debit_txn sa amount (desc.getD ("Transfer to " ++ user_display_name tu)) now n).date
        = (credit_txn ta amount ("Transfer from " ++ user_display_name su) now n).date
    ∧ (sa.account_id ≠ ta.account_id →
      (mt.accounts.map (fun a => a.account_id)).Nodup →
      (mt2.accounts.find? (fun a => a.account_id == sa.account_id)).map (fun a => a.balance)
          = some (debit_txn sa amount
              (desc.getD ("Transfer to " ++ user_display_name tu)) now n).balance_after
      ∧ (mt2.accounts.find? (fun a => a.account_id == ta.account_id)).map (fun a => a.balance)
          = some (credit_txn ta amount
              ("Transfer from " ++ user_display_name su) now n).balance_after) := by
  obtain ⟨hcore, hsave⟩ := transfer_money_success_inv h hs
  rw [transfer_core_eq hsa hta hsu htu hn] at hcore
  obtain ⟨hres, hmt2⟩ := Prod.mk.injEq .. ▸ Option.some.inj hcore
  have htxns : mt2.transactions = mt.transactions ++
      [debit_txn sa amount (desc.getD ("Transfer to " ++ user_display_name tu)) now n,
       credit_txn ta amount ("Transfer from " ++ user_display_name su) now n] := by
    rw [← hmt2]
  have haccs : mt2.accounts = set_balance_by_id
      (set_balance_by_id mt.accounts sa.account_id (sa.balance - amount))
      ta.account_id (ta.balance + amount) := by
    rw [← hmt2]
  refine ⟨htxns, hres.symm, rfl, ?_⟩
  intro hne hnd
  have hfindS : mt.accounts.find? (fun x => x.account_id == sa.account_id) = some sa :=
    find?_of_mem_nodup (get_account_by_type_spec hsa).1 hnd
  have hfindT : mt.accounts.find? (fun x => x.account_id == ta.account_id) = some ta :=
    find?_of_mem_nodup (get_account_by_type_spec hta).1 hnd
  have hfindS1 :
      (set_balance_by_id mt.accounts sa.account_id (sa.balance - amount)).find?
        (fun x => x.account_id == sa.account_id) =
        some { sa with balance := sa.balance - amount } :=
    find?_set_balance_by_id_same _ hfindS
  have hfindT1 :
      (set_balance_by_id mt.accounts sa.account_id (sa.balance - amount)).find?
        (fun x => x.account_id == ta.account_id) = some ta := by
    rw [find?_set_balance_by_id_other _ (Ne.symm hne)]
    exact hfindT
  constructor
  · rw [haccs, find?_set_balance_by_id_other _ hne, hfindS1]
    rfl
  · rw [haccs, find?_set_balance_by_id_same _ hfindT1]
    rfl

theorem takeWhile_of_all {l : List Char} (h : ∀ c ∈ l, c.isDigit = true) :
    l.takeWhile Char.isDigit = l := by
  induction l with
  | nil => rfl
  | cons c t ih =>
    rw [List.takeWhile_cons, h c (List.mem_cons_self c t)]
    simp [ih (fun x hx => h x (List.mem_cons_of_mem c hx))]

/-- On an id that is literally `"TX"` followed by digits, the extraction
returns the value of the digit suffix. -/
theorem extractTxNum_of_form {s : String} (h : isTxIdForm s = true) :
    extractTxNum s.data = some (digitsToNat (s.data.drop 2)) := by
  unfold isTxIdForm at h
  split at h
  · rename_i ds heq
    rw [heq]
    simp only [Bool.and_eq_true, Bool.not_eq_true', List.isEmpty_iff] at h
    obtain ⟨hne, hdig⟩ := h
    cases ds with
    | nil => simp at hne
    | cons d rest =>
      have hd : d.isDigit = true := by
        have := List.all_eq_true.mp hdig d (List.mem_cons_self d rest)
        exact this
      have hstep : extractTxNum ('T' :: 'X' :: d :: rest) =
          if d.isDigit then some (digitsToNat ((d :: rest).takeWhile Char.isDigit))
          else extractTxNum ('X' :: d :: rest) := rfl
      rw [hstep, if_pos hd, takeWhile_of_all (fun c hc => List.all_eq_true.mp hdig c hc)]
      rfl
  · cases h

theorem filterMap_id_map_some {α β : Type} (g : α → β) (l : List α) :
    (l.map (fun x => some (g x))).filterMap id = l.map g := by
  induction l with
  | nil => rfl
  | cons a t ih => simp [List.filterMap_cons, ih]

/-- Claim C6: the allocator is a deterministic function of the transactions table:
on an empty table it returns "TX0001"; on a non-empty table whose ids are
all of the textual form "TX"+digits it returns `txFormat` (zero-padded to
four digits, growing beyond naturally) of the maximum numeric suffix plus
one (`foldl Nat.max 0` of the parsed suffixes). -/
theorem C6_transaction_id_allocator (txns : List Txn) :
    (txns = [] → generate_transaction_id txns = some "TX0001")
    ∧ (txns ≠ [] → (∀ t ∈ txns, isTxIdForm t.transaction_id = true) →
      generate_transaction_id txns = some (txFormat
        ((txns.map (fun t => digitsToNat (t.transaction_id.data.drop 2))).foldl
          Nat.max 0 + 1))) := by
  constructor
  · rintro rfl
    decide
  · intro hne hall
    have hmap : txns.map (fun t => extractTxNum t.transaction_id.data)
        = txns.map (fun t => some (digitsToNat (t.transaction_id.data.drop 2))) :=
      List.map_congr_left (fun t ht => extractTxNum_of_form (hall t ht))
    have hc : ((txns.map (fun t =>
        some (digitsToNat (t.transaction_id.data.drop 2)))).all Option.isSome) = true := by
      apply List.all_eq_true.mpr
      intro x hx
      obtain ⟨t, ht, rfl⟩ := List.mem_map.mp hx
      rfl
    unfold generate_transaction_id next_tx_number
    rw [if_neg (by simpa [List.isEmpty_iff] using hne), hmap, if_pos hc,
      filterMap_id_map_some]
    rfl

/-- Claim C8: when the `(user_id, account_type)` account exists,
`check_sufficient_funds` fails exactly when its balance is strictly below
the amount (equality passes); on failure the message carries the current
balance and requested amount, plus the name of the first other-typed account
of the user whose balance covers the amount, when one exists. -/
theorem C8_sufficient_funds_check {mt : MoneyTransfer} {user_id account_type : String}
    {amount : ℚ} {a : Account}
    (h : get_account_by_type mt user_id account_type = some a) :
    ((check_sufficient_funds mt user_id account_type amount).1 = false ↔ a.balance < amount)
    ∧ (a.balance < amount →
      (check_sufficient_funds mt user_id account_type amount).2 =
        .insufficientFunds a.balance amount
          (((mt.accounts.filter
              (fun x => x.owner_id == user_id && !(x.account_type == account_type))).filter
            (fun x => decide (amount ≤ x.balance))).head?.map (fun x => x.account_name)))
    ∧ (amount ≤ a.balance →
      check_sufficient_funds mt user_id account_type amount = (true, .sufficientFunds)) := by
  simp only [check_sufficient_funds, h]
  by_cases hlt : a.balance < amount
  · rw [if_pos hlt]
    exact ⟨by simp [hlt], fun _ => rfl, fun hle => absurd hlt (not_lt.mpr hle)⟩
  · rw [if_neg hlt]
    exact ⟨by simp [hlt], fun hlt2 => absurd hlt2 hlt, fun _ => rfl⟩

/-- Counterexample for claim C9: a user that exists in the users table but owns no
account receives an error envelope with code NO_ACCOUNTS (with no transfers
list), not a success envelope listing its (empty) transfer set. -/
theorem C9_counterexample :
    validate_user mtNoAcct "USR002" = true
    ∧ get_transfer_history mtNoAcct "USR002" 30 none 0 = .error .NO_ACCOUNTS .noAccounts := by
  exact ⟨by decide, by decide⟩

/-- Claim C9 (amended): `get_transfer_history` always returns an envelope: a
non-existent user yields USER_NOT_FOUND; a valid user against an empty
accounts table yields DATA_ERROR; a valid user with no matching account
yields NO_ACCOUNTS (each an error envelope with no transfers list); every
success envelope lists exactly the user's transactions (restricted to the
optional account type) with category "Transfers" and date at or after
`now - days`, sorted newest first (a permutation of the filter, pairwise
newest-first); and a valid user with a non-empty accounts table and at least
one matching account always receives that success envelope. -/
theorem C9_history_envelope (mt : MoneyTransfer) (user_id : String) (days : ℚ)
    (account_type : Option String) (now : ℚ) :
    (validate_user mt user_id = false →
      get_transfer_history mt user_id days account_type now =
        .error .USER_NOT_FOUND (.userNotFound user_id))
    ∧ (validate_user mt user_id = true → mt.accounts.isEmpty = true →
      get_transfer_history mt user_id days account_type now = .error .DATA_ERROR .dataError)
    ∧ (validate_user mt user_id = true → mt.accounts.isEmpty = false →
      (user_account_ids mt user_id account_type).isEmpty = true →
      get_transfer_history mt user_id days account_type now = .error .NO_ACCOUNTS .noAccounts)
    ∧ (∀ m l, get_transfer_history mt user_id days account_type now = .success m l →
      l = (sortNewestFirst (history_filter mt user_id days account_type now)).map toHistEntry)
    ∧ (sortNewestFirst (history_filter mt user_id days account_type now)).Perm
        (history_filter mt user_id days account_type now)
    ∧ List.Sorted newestFirst (sortNewestFirst (history_filter mt user_id days account_type now))
    ∧ (validate_user mt user_id = true → mt.accounts.isEmpty = false →
      (user_account_ids mt user_id account_type).isEmpty = false →
      get_transfer_history mt user_id days account_type now =
        .success
          (if (sortNewestFirst (history_filter mt user_id days account_type now)).isEmpty
            then .noTransfersFound
            else .foundTransfers
              (sortNewestFirst (history_filter mt user_id days account_type now)).length)
          ((sortNewestFirst (history_filter mt user_id days account_type now)).map
            toHistEntry)) := by
  refine ⟨?_, ?_, ?_, ?_, List.perm_insertionSort _ _, List.sorted_insertionSort _ _, ?_⟩
  · intro h
    simp [get_transfer_history, h]
  · intro h1 h2
    unfold get_transfer_history
    rw [if_neg (by simp [h1]), if_pos h2]
  · intro h1 h2 h3
    unfold get_transfer_history
    rw [if_neg (by simp [h1]), if_neg (by simp [h2]), if_pos h3]
  · intro m l h
    unfold get_transfer_history at h
    split at h
    · cases h
    · split at h
      · cases h
      · split at h
        · cases h
        · split at h
          · rename_i htr
            obtain ⟨hm, hl⟩ := HistResult.success.injEq .. ▸ h
            have htr' : mt.transactions = [] := List.isEmpty_iff.mp htr
            have hfil : history_filter mt user_id days account_type now = [] := by
              unfold history_filter
              rw [htr']
              rfl
            rw [hfil] at *
            exact hl.symm
          · split at h
            · rename_i hemp
              obtain ⟨hm, hl⟩ := HistResult.success.injEq .. ▸ h
              have hemp' : sortNewestFirst (history_filter mt user_id days account_type now)
                  = [] := List.isEmpty_iff.mp hemp
              rw [hemp']
              exact hl.symm
            · obtain ⟨hm, hl⟩ := HistResult.success.injEq .. ▸ h
              exact hl.symm
  · intro h1 h2 h3
    unfold get_transfer_history
    rw [if_neg (by simp [h1]), if_neg (by simp [h2]), if_neg (by simp [h3])]
    split
    · rename_i htr
      have htr' : mt.transactions = [] := List.isEmpty_iff.mp htr
      have hfil : history_filter mt user_id days account_type now = [] := by
        unfold history_filter
        rw [htr']
        rfl
      rw [hfil]
      rfl
    · split
      · rename_i hemp
        have hemp' : sortNewestFirst (history_filter mt user_id days account_type now)
            = [] := List.isEmpty_iff.mp hemp
        rw [hemp']
        rfl
      · rfl

/-- Witness for claim C1 on concrete data: a 200-unit transfer between two
distinct accounts lands at 300/300 and conserves the total. -/
theorem C1_witness :
    ((transfer_money mtAB "USR001" "USR002" 200 "REGULAR_SAVINGS" "REGULAR_SAVINGS"
        none true 0).2.accounts.find? (fun a => a.account_id == "ACC001")).map
        (fun a => a.balance) = some 300
    ∧ ((transfer_money mtAB "USR001" "USR002" 200 "REGULAR_SAVINGS" "REGULAR_SAVINGS"
        none true 0).2.accounts.find? (fun a => a.account_id == "ACC002")).map
        (fun a => a.balance) = some 300
    ∧ sumBalances (transfer_money mtAB "USR001" "USR002" 200 "REGULAR_SAVINGS"
        "REGULAR_SAVINGS" none true 0).2.accounts = sumBalances mtAB.accounts := by
  have h := (C1_balance_conservation
    (show transfer_money mtAB "USR001" "USR002" 200 "REGULAR_SAVINGS" "REGULAR_SAVINGS"
        none true 0 =
      ((transfer_money mtAB "USR001" "USR002" 200 "REGULAR_SAVINGS" "REGULAR_SAVINGS"
        none true 0).1,
       (transfer_money mtAB "USR001" "USR002" 200 "REGULAR_SAVINGS" "REGULAR_SAVINGS"
        none true 0).2) from rfl)
    (by decide)
    (show get_account_by_type mtAB "USR001" "REGULAR_SAVINGS" = some acctA from by decide)
    (show get_account_by_type mtAB "USR002" "REGULAR_SAVINGS" = some acctB from by decide)
    (by decide)).1 (by decide)
  exact ⟨h.1.trans (by decide), h.2.1.trans (by decide), h.2.2⟩

/-- Witness for claim C2 on concrete data: with persistence failing, the
call returns SAVE_FAILURE and the state is byte-identical to the entry
state. -/
theorem C2_witness :
    (transfer_money mtAB "USR001" "USR002" 200 "REGULAR_SAVINGS" "REGULAR_SAVINGS"
      none false 0).1 = .error .SAVE_FAILURE .saveFailed
    ∧ (transfer_money mtAB "USR001" "USR002" 200 "REGULAR_SAVINGS" "REGULAR_SAVINGS"
      none false 0).2 = mtAB := by
  have h := C2_rollback mtAB "USR001" "USR002" 200 "REGULAR_SAVINGS" "REGULAR_SAVINGS"
    none false 0
  exact ⟨h.2.2.1 rfl (by decide) (by decide), (h.2.1 rfl).2⟩

/-- Witness for claim C3 on concrete data: the appended debit/credit pair,
with default description, consecutive ids TX0001/TX0002, shared timestamp
and the post-mutation balances. -/
theorem C3_witness :
    (transfer_money mtAB "USR001" "USR002" 200 "REGULAR_SAVINGS" "REGULAR_SAVINGS"
      none true 5).2.transactions =
      [ { transaction_id := "TX0001", account_id := "ACC001", date := 5,
          description := "Transfer to Maria Lopez", category := "Transfers",
          amount := -200, currency := "USD", balance_after := 300, status := "completed",
          merchant_name := "Internal Transfer", location := "N/A",
          transaction_type := "transfer" },
        { transaction_id := "TX0002", account_id := "ACC002", date := 5,
          description := "Transfer from Darren Tan", category := "Transfers",
          amount := 200, currency := "USD", balance_after := 300, status := "completed",
          merchant_name := "Internal Transfer", location := "N/A",
          transaction_type := "transfer" } ]
    ∧ (transfer_money mtAB "USR001" "USR002" 200 "REGULAR_SAVINGS" "REGULAR_SAVINGS"
        none true 5).1 =
      .success (.transferSuccess 200 "Darren Tan" "Maria Lopez") 300 300 "TX0001" 5 := by
  have h := C3_transaction_pair
    (show transfer_money mtAB "USR001" "USR002" 200 "REGULAR_SAVINGS" "REGULAR_SAVINGS"
        none true 5 =
      ((transfer_money mtAB "USR001" "USR002" 200 "REGULAR_SAVINGS" "REGULAR_SAVINGS"
        none true 5).1,
       (transfer_money mtAB "USR001" "USR002" 200 "REGULAR_SAVINGS" "REGULAR_SAVINGS"
        none true 5).2) from rfl)
    (by decide)
    (show get_account_by_type mtAB "USR001" "REGULAR_SAVINGS" = some acctA from by decide)
    (show get_account_by_type mtAB "USR002" "REGULAR_SAVINGS" = some acctB from by decide)
    (show (mtAB.users.filter (fun u => u.user_id == "USR001")).head? = some uA from by decide)
    (show (mtAB.users.filter (fun u => u.user_id == "USR002")).head? = some uB from by decide)
    (show next_tx_number mtAB.transactions = some 1 from by decide)
  exact ⟨h.1.trans (by decide), h.2.1.trans (by decide)⟩

/-- Witness for claim C4 on concrete data: a non-existent source user is
rejected with USER_NOT_FOUND and an untouched state. -/
theorem C4_witness :
    transfer_money mtAB "USR999" "USR002" 50 "REGULAR_SAVINGS" "REGULAR_SAVINGS"
      none true 0 =
      (.error .USER_NOT_FOUND (.sourceUserNotFound "USR999"), mtAB) :=
  (C4_validation_order mtAB "USR999" "USR002" 50 "REGULAR_SAVINGS" "REGULAR_SAVINGS"
    none true 0).1 (by decide)

/-- Witness for claim C5 on concrete data: 10000.01 rejected with
INVALID_AMOUNT and the authorization message; 10000 accepted by amount
validation. -/
theorem C5_witness :
    (transfer_money mtAB "USR001" "USR002" (10000.01 : ℚ) "REGULAR_SAVINGS"
      "REGULAR_SAVINGS" none true 0).1 = .error .INVALID_AMOUNT .amountOverLimit
    ∧ (validate_amount (.num 10000)).1 = true :=
  ⟨C5_amount_ceiling.2.2.2.2.2.2.2 mtAB "USR001" "USR002" "REGULAR_SAVINGS"
      "REGULAR_SAVINGS" none true 0 (by decide) (by decide),
    (C5_amount_ceiling.1 10000).mpr (by decide)⟩

/-- Witness for claim C6 on concrete data: empty table starts at TX0001; ids
TX0007 and TX12345 allocate TX12346 (pad width grown past four digits). -/
theorem C6_witness :
    generate_transaction_id ([] : List Txn) = some "TX0001"
    ∧ generate_transaction_id [txRow "TX0007" "ACC001" 0 "Transfers",
        txRow "TX12345" "ACC001" 0 "Transfers"] = some "TX12346" := by
  constructor
  · exact (C6_transaction_id_allocator []).1 rfl
  · exact ((C6_transaction_id_allocator _).2 (by decide) (by decide)).trans (by decide)

/-- Witness for claim C7 on concrete data: amounts 0, -5 and 15000 are each
rejected deterministically with INVALID_AMOUNT and an untouched state. -/
theorem C7_witness :
    transfer_money mtAB "USR001" "USR002" 0 "REGULAR_SAVINGS" "REGULAR_SAVINGS"
      none true 0 = (.error .INVALID_AMOUNT .amountNotPositive, mtAB)
    ∧ transfer_money mtAB "USR001" "USR002" (-5) "REGULAR_SAVINGS" "REGULAR_SAVINGS"
      none true 0 = (.error .INVALID_AMOUNT .amountNotPositive, mtAB)
    ∧ transfer_money mtAB "USR001" "USR002" 15000 "REGULAR_SAVINGS" "REGULAR_SAVINGS"
      none true 0 = (.error .INVALID_AMOUNT .amountOverLimit, mtAB) :=
  ⟨(@C7_invalid_amount_rejection mtAB "USR001" "USR002" 0 "REGULAR_SAVINGS"
      "REGULAR_SAVINGS" none true 0 (by decide) (by decide) (by decide)).trans (by decide),
   (@C7_invalid_amount_rejection mtAB "USR001" "USR002" (-5) "REGULAR_SAVINGS"
      "REGULAR_SAVINGS" none true 0 (by decide) (by decide) (by decide)).trans (by decide),
   (@C7_invalid_amount_rejection mtAB "USR001" "USR002" 15000 "REGULAR_SAVINGS"
      "REGULAR_SAVINGS" none true 0 (by decide) (by decide) (by decide)).trans (by decide)⟩

/-- Witness for claim C8 on concrete data: balance 50 against amount 200
fails, the message carries 50 and 200 and suggests the first other-typed
account with enough funds. -/
theorem C8_witness :
    check_sufficient_funds mtFunds "USR001" "REGULAR_SAVINGS" 200 =
      (false, .insufficientFunds 50 200 (some "Darren Checking")) := by
  have h := @C8_sufficient_funds_check mtFunds "USR001" "REGULAR_SAVINGS" 200 acctD
    (by decide)
  have h1 : (check_sufficient_funds mtFunds "USR001" "REGULAR_SAVINGS" 200).1 = false :=
    h.1.mpr (by decide)
  have h2 := (h.2.1 (by decide)).trans (by decide :
    Msg.insufficientFunds acctD.balance 200
      (((mtFunds.accounts.filter
          (fun x => x.owner_id == "USR001" && !(x.account_type == "REGULAR_SAVINGS"))).filter
        (fun x => decide ((200 : ℚ) ≤ x.balance))).head?.map (fun x => x.account_name)) =
      Msg.insufficientFunds 50 200 (some "Darren Checking"))
  exact Prod.ext h1 h2

/-- Witness for claim C9 on concrete data: a five-day window over the
fixture table yields exactly the two in-window transfers on the user's
account, newest first; a valid user with no account gets NO_ACCOUNTS; a
valid user against an empty accounts table gets DATA_ERROR. -/
theorem C9_witness :
    get_transfer_history mtHist "USR001" 5 none 10 =
      .success (.foundTransfers 2)
        [toHistEntry (txRow "TX0005" "ACC001" 10 "Transfers"),
         toHistEntry (txRow "TX0002" "ACC001" 6 "Transfers")]
    ∧ get_transfer_history mtNoAcct "USR002" 30 none 0 = .error .NO_ACCOUNTS .noAccounts
    ∧ get_transfer_history mtEmptyAcct "USR001" 30 none 0 = .error .DATA_ERROR .dataError := by
  refine ⟨?_, ?_, ?_⟩
  · exact ((C9_history_envelope mtHist "USR001" 5 none 10).2.2.2.2.2.2
      (by decide) (by decide) (by decide)).trans (by decide)
  · exact (C9_history_envelope mtNoAcct "USR002" 30 none 0).2.2.1
      (by decide) (by decide) (by decide)
  · exact (C9_history_envelope mtEmptyAcct "USR001" 30 none 0).2.1
      (by decide) (by decide)

/-- Witness for claim C10 on concrete data: a valid user with no CHECKING
account is rejected with INSUFFICIENT_FUNDS and the account-not-found
message. -/
theorem C10_witness :
    transfer_money mtAB "USR001" "USR002" 50 "CHECKING" "REGULAR_SAVINGS" none true 0 =
      (.error .INSUFFICIENT_FUNDS .accountNotFound, mtAB) :=
  @C10_missing_account_code mtAB "USR001" "USR002" 50 "CHECKING" "REGULAR_SAVINGS"
    none true 0 (by decide) (by decide) (by decide) (by decide)
